import Mathlib

set_option linter.unusedVariables false

/-!
Shallow embedding of the DP World voice container-booking front end:
the useVoiceBooking hook of src/App.tsx together with the BookingStep
enum from the types module.  The pure state of the hook is the record of
its React useState cells; every event handler becomes a function from
that record to the next record.  The audio-playback bookkeeping
(nextStartTimeRef and the queue of scheduled sources) is modelled as a
separate record with its own operations.
-/

/-- BookingStep enum from the types module. -/
inductive BookingStep where
  | IDLE
  | CONNECTING
  | LISTENING_DPW
  | CONFIRMING_DPW
  | LISTENING_TOKEN
  | CONFIRMING_TOKEN
  | CONFIRMING_BOOKING
  | PROCESSING
  | SUCCESS
  | ERROR
  deriving DecidableEq

/-- The useVoiceBooking useState cells read and written by the booking
logic.  The volume cell (a display-only audio level) and the browser
resource refs are outside every claim and are not part of this record. -/
structure HookState where
  bookingStep : BookingStep
  dpwRef : String
  token : String
  containerNumber : String
  containerLocation : String
  gateInTime : String
  error : Option String
  deriving DecidableEq

/-- Code points matched by the JavaScript regex class \s, as used by
`number.replace(/\s/g, '')` in the submit handlers. -/
def isJsWhitespace (c : Char) : Bool :=
  c.toNat == 0x20 || c.toNat == 0x09 || c.toNat == 0x0a || c.toNat == 0x0d ||
  c.toNat == 0x0b || c.toNat == 0x0c || c.toNat == 0xa0 || c.toNat == 0x1680 ||
  (decide (0x2000 ≤ c.toNat) && decide (c.toNat ≤ 0x200a)) ||
  c.toNat == 0x2028 || c.toNat == 0x2029 || c.toNat == 0x202f ||
  c.toNat == 0x205f || c.toNat == 0x3000 || c.toNat == 0xfeff

/-- JavaScript regex class \d: exactly the ASCII digits 0-9. -/
def isAsciiDigit (c : Char) : Bool :=
  decide (0x30 ≤ c.toNat) && decide (c.toNat ≤ 0x39)

/-- `number.replace(/\s/g, '')` from the submit handlers. -/
def stripWhitespace (s : String) : String :=
  String.mk (s.data.filter (fun c => !isJsWhitespace c))

def DPW_REF_LENGTH : Nat := 7

def TOKEN_LENGTH : Nat := 6

/-- The guard `number && /^\d{n}$/.test(number)` of the submit handlers:
the cleaned string is truthy (non-empty) and is exactly n ASCII digits. -/
def validNumber (n : Nat) (s : String) : Bool :=
  s != "" && s.length == n && s.data.all isAsciiDigit

/-- The five tool-call events declared to the model and handled inside
useVoiceBooking.onmessage. -/
inductive FunctionCall where
  | submitDpwReferenceNumber (number : String)
  | confirmDpwReference (isCorrect : Bool)
  | submitTokenNumber (number : String)
  | confirmToken (isCorrect : Bool)
  | confirmBooking (proceed : Bool)
  deriving DecidableEq

/-- One iteration of the function-call loop in useVoiceBooking.onmessage.
The `confirmBooking` branch with proceed=true synchronously sets
PROCESSING and then launches the asynchronous processBooking body, which
is modelled by the separate `processBooking` below. -/
def onFunctionCall (s : HookState) (fc : FunctionCall) : HookState :=
  match fc with
  | .submitDpwReferenceNumber payload =>
      let number := stripWhitespace payload
      if validNumber DPW_REF_LENGTH number then
        { s with dpwRef := number, bookingStep := .CONFIRMING_DPW }
      else
        s
  | .confirmDpwReference isCorrect =>
      if isCorrect then
        { s with bookingStep := .LISTENING_TOKEN }
      else
        { s with dpwRef := "", bookingStep := .LISTENING_DPW }
  | .submitTokenNumber payload =>
      let number := stripWhitespace payload
      if validNumber TOKEN_LENGTH number then
        { s with token := number, bookingStep := .CONFIRMING_TOKEN }
      else
        s
  | .confirmToken isCorrect =>
      if isCorrect then
        { s with bookingStep := .CONFIRMING_BOOKING }
      else
        { s with token := "", bookingStep := .LISTENING_TOKEN }
  | .confirmBooking proceed =>
      if proceed then
        { s with bookingStep := .PROCESSING }
      else
        { s with dpwRef := "", token := "", bookingStep := .LISTENING_DPW }

/-- The Math.random draws consumed by the processBooking body, recorded
as the integer result of each Math.floor application and the two letter
indices chosen by randomChar. -/
structure ProcessRandom where
  containerNum : Nat
  locPart1 : Nat
  locIdx2 : Nat
  locPart3 : Nat
  locIdx4 : Nat
  locPart5 : Nat
  hour : Nat
  minute : Nat
  deriving DecidableEq

/-- JavaScript `s.padStart(2, '0')`. -/
def padStart2 (s : String) : String :=
  if 2 ≤ s.length then s else String.mk (List.replicate (2 - s.length) '0') ++ s

/-- JavaScript `'ABCDEFGHIJKLMNOPQRSTUVWXYZ'.charAt(i)` (empty when the
index is out of range, as charAt is in JavaScript). -/
def lettersCharAt (i : Nat) : String :=
  match "ABCDEFGHIJKLMNOPQRSTUVWXYZ".data.get? i with
  | some c => String.singleton c
  | none => ""

/-- mockContainerNumber from processBooking. -/
def mockContainerNumber (r : ProcessRandom) : String :=
  "DPWU" ++ toString r.containerNum

/-- generateMockLocation from processBooking. -/
def generateMockLocation (r : ProcessRandom) : String :=
  padStart2 (toString r.locPart1) ++ lettersCharAt r.locIdx2 ++
    padStart2 (toString r.locPart3) ++ lettersCharAt r.locIdx4 ++
    toString r.locPart5

/-- mockGateInTime from processBooking. -/
def mockGateInTime (r : ProcessRandom) : String :=
  toString r.hour ++ ":" ++ padStart2 (toString r.minute) ++ " PM"

/-- The asynchronous processBooking body launched by
confirmBooking(proceed=true): fill the mock record and move to SUCCESS. -/
def processBooking (s : HookState) (r : ProcessRandom) : HookState :=
  { s with containerNumber := mockContainerNumber r,
           containerLocation := generateMockLocation r,
           gateInTime := mockGateInTime r,
           bookingStep := .SUCCESS }

/-- Error message installed by the session onerror callback. -/
def connectionErrorMessage : String := "A connection error occurred. Please try again."

/-- Error message installed by the startBooking catch branch. -/
def micErrorMessage : String := "Could not access the microphone. Please grant permission and try again."

/-- The initial values of every useState cell of the hook. -/
def initialState : HookState :=
  { bookingStep := .IDLE, dpwRef := "", token := "", containerNumber := "",
    containerLocation := "", gateInTime := "", error := none }

/-- The synchronous head of startBooking (run when no session exists):
move to CONNECTING and clear the error and every captured field. -/
def startBookingInit (s : HookState) : HookState :=
  { s with bookingStep := .CONNECTING, error := none, dpwRef := "", token := "",
           containerNumber := "", containerLocation := "", gateInTime := "" }

/-- The session onopen callback: start listening for the DPW reference. -/
def onopen (s : HookState) : HookState :=
  { s with bookingStep := .LISTENING_DPW }

/-- The session onerror callback: record the connection error message and
move to ERROR. -/
def onerror (s : HookState) : HookState :=
  { s with error := some connectionErrorMessage, bookingStep := .ERROR }

/-- The catch branch of startBooking (microphone/connect failure):
record the microphone error message and move to ERROR. -/
def startBookingFailure (s : HookState) : HookState :=
  { s with error := some micErrorMessage, bookingStep := .ERROR }

/-- submitManualInput from the hook: store the raw string and advance
when listening for a reference or token, otherwise do nothing.  (It also
stops playback; the audio side is modelled separately below.) -/
def submitManualInput (s : HookState) (number : String) : HookState :=
  if s.bookingStep = .LISTENING_DPW then
    { s with dpwRef := number, bookingStep := .CONFIRMING_DPW }
  else if s.bookingStep = .LISTENING_TOKEN then
    { s with token := number, bookingStep := .CONFIRMING_TOKEN }
  else
    s

/-- reset from the hook: back to IDLE with every cell cleared. -/
def reset (s : HookState) : HookState :=
  { s with bookingStep := .IDLE, dpwRef := "", token := "", containerNumber := "",
           containerLocation := "", gateInTime := "", error := none }

/-- States reachable through the hook's handlers from the useState
initial values. -/
inductive Reachable : HookState → Prop where
  | init : Reachable initialState
  | startB {s} : Reachable s → Reachable (startBookingInit s)
  | opened {s} : Reachable s → Reachable (onopen s)
  | call {s} (fc : FunctionCall) : Reachable s → Reachable (onFunctionCall s fc)
  | finish {s} (r : ProcessRandom) : Reachable s → Reachable (processBooking s r)
  | manual {s} (n : String) : Reachable s → Reachable (submitManualInput s n)
  | sessionErr {s} : Reachable s → Reachable (onerror s)
  | startFail {s} : Reachable s → Reachable (startBookingFailure s)
  | didReset {s} : Reachable s → Reachable (reset s)

/-- One scheduled output chunk: its start time on the output context
clock and the duration of its decoded buffer, in seconds. -/
structure ScheduledChunk where
  start : ℚ
  duration : ℚ
  deriving DecidableEq

/-- The playback bookkeeping of useVoiceBooking: nextStartTimeRef (the
playback cursor) and the audioSourcesRef queue of scheduled sources. -/
structure AudioPlayback where
  nextStartTime : ℚ
  sources : List ScheduledChunk
  deriving DecidableEq

/-- playAudio for one decoded chunk: clamp the cursor up to the
context's currentTime, schedule the chunk to start at the cursor, then
advance the cursor by the chunk's duration. -/
def playAudio (st : AudioPlayback) (currentTime duration : ℚ) : AudioPlayback :=
  let t := max st.nextStartTime currentTime
  { nextStartTime := t + duration, sources := st.sources ++ [⟨t, duration⟩] }

/-- stopPlayback (run on the interrupted server signal, among others):
stop and drop every pending source and reset the cursor to zero. -/
def stopPlayback (st : AudioPlayback) : AudioPlayback :=
  { nextStartTime := 0, sources := [] }

/-- Every pending chunk ends no later than the cursor; playAudio has
this by construction since each chunk is scheduled at the cursor and the
cursor then advances past it. -/
def pendingBounded (st : AudioPlayback) : Prop :=
  ∀ c ∈ st.sources, c.start + c.duration ≤ st.nextStartTime

/-- Immediate successor in the linear order the spec gives for the
booking steps (ERROR sits outside the order). -/
def linearSucc : BookingStep → Option BookingStep
  | .IDLE => some .CONNECTING
  | .CONNECTING => some .LISTENING_DPW
  | .LISTENING_DPW => some .CONFIRMING_DPW
  | .CONFIRMING_DPW => some .LISTENING_TOKEN
  | .LISTENING_TOKEN => some .CONFIRMING_TOKEN
  | .CONFIRMING_TOKEN => some .CONFIRMING_BOOKING
  | .CONFIRMING_BOOKING => some .PROCESSING
  | .PROCESSING => some .SUCCESS
  | .SUCCESS => none
  | .ERROR => none

/-- Denial events: a confirmation answered with false. -/
def isDenial : FunctionCall → Bool
  | .confirmDpwReference false => true
  | .confirmToken false => true
  | .confirmBooking false => true
  | _ => false

/-- The listening state immediately preceding a step in the linear
order (none when no listening state precedes it). -/
def precedingListening : BookingStep → Option BookingStep
  | .CONFIRMING_DPW => some .LISTENING_DPW
  | .LISTENING_TOKEN => some .LISTENING_DPW
  | .CONFIRMING_TOKEN => some .LISTENING_TOKEN
  | .CONFIRMING_BOOKING => some .LISTENING_TOKEN
  | .PROCESSING => some .LISTENING_TOKEN
  | .SUCCESS => some .LISTENING_TOKEN
  | _ => none

/-- The step each handler moves to, read off the handler bodies: it is
keyed by the event alone, the current step entering only through the
ignored-payload case of an invalid submission.  Compared against
onFunctionCall in the theorem about the transition order. -/
def eventTargetStep : FunctionCall → BookingStep → BookingStep
  | .submitDpwReferenceNumber payload, cur =>
      if validNumber DPW_REF_LENGTH (stripWhitespace payload) then .CONFIRMING_DPW else cur
  | .confirmDpwReference isCorrect, _ =>
      if isCorrect then .LISTENING_TOKEN else .LISTENING_DPW
  | .submitTokenNumber payload, cur =>
      if validNumber TOKEN_LENGTH (stripWhitespace payload) then .CONFIRMING_TOKEN else cur
  | .confirmToken isCorrect, _ =>
      if isCorrect then .CONFIRMING_BOOKING else .LISTENING_TOKEN
  | .confirmBooking proceed, _ =>
      if proceed then .PROCESSING else .LISTENING_DPW

/-- Number of ASCII digits in a payload string. -/
def digitCount (s : String) : Nat :=
  (s.data.filter isAsciiDigit).length

/-! ## Helper lemmas -/

theorem data_append (s t : String) : (s ++ t).data = s.data ++ t.data := by
  cases s; cases t; rfl

theorem string_append_ne_empty_left (s t : String) (h : s.data ≠ []) : s ++ t ≠ "" := by
  intro he
  apply h
  have h2 : s.data ++ t.data = ([] : List Char) := by
    rw [← data_append]
    exact congrArg String.data he
  exact (List.append_eq_nil.mp h2).1

theorem string_append_ne_empty_right (s t : String) (h : t.data ≠ []) : s ++ t ≠ "" := by
  intro he
  apply h
  have h2 : s.data ++ t.data = ([] : List Char) := by
    rw [← data_append]
    exact congrArg String.data he
  exact (List.append_eq_nil.mp h2).2

theorem data_ne_nil_append_left (s t : String) (h : s.data ≠ []) : (s ++ t).data ≠ [] := by
  rw [data_append]
  intro he
  exact h (List.append_eq_nil.mp he).1

theorem padStart2_data_ne_nil (s : String) : (padStart2 s).data ≠ [] := by
  unfold padStart2
  split
  case isTrue h =>
    intro he
    have h0 : s.length = 0 := by
      show s.data.length = 0
      rw [he]
      rfl
    omega
  case isFalse h =>
    rw [data_append]
    intro he
    have h1 := (List.append_eq_nil.mp he).1
    have h2 : List.replicate (2 - s.length) '0' = ([] : List Char) := h1
    have h3 : 2 - s.length = 0 := by
      have := congrArg List.length h2
      simpa using this
    omega

theorem digit_not_ws (c : Char) (h : isAsciiDigit c = true) : isJsWhitespace c = false := by
  simp only [isAsciiDigit, Bool.and_eq_true, decide_eq_true_eq] at h
  simp only [isJsWhitespace, Bool.or_eq_false_iff, beq_eq_false_iff_ne, ne_eq,
    Bool.and_eq_false_iff, decide_eq_false_iff_not, not_le]
  omega

theorem filter_digit_strip (l : List Char) :
    (l.filter fun c => !isJsWhitespace c).filter isAsciiDigit = l.filter isAsciiDigit := by
  induction l with
  | nil => rfl
  | cons c l ih =>
      by_cases hd : isAsciiDigit c = true
      · have hw : isJsWhitespace c = false := digit_not_ws c hd
        simp [List.filter_cons, hw, hd, ih]
      · have hd2 : isAsciiDigit c = false := by
          cases hv : isAsciiDigit c
          · rfl
          · exact absurd hv hd
        cases hw : isJsWhitespace c
        · simp [List.filter_cons, hw, hd2, ih]
        · simp [List.filter_cons, hw, hd2, ih]

theorem digitCount_of_validNumber (n : Nat) (payload : String)
    (h : validNumber n (stripWhitespace payload) = true) :
    digitCount payload = n := by
  simp only [validNumber, Bool.and_eq_true, bne_iff_ne, ne_eq, beq_iff_eq,
    List.all_eq_true] at h
  obtain ⟨⟨hne, hlen⟩, hall⟩ := h
  have hfilter : (stripWhitespace payload).data.filter isAsciiDigit =
      (stripWhitespace payload).data := List.filter_eq_self.mpr hall
  have key : (payload.data.filter isAsciiDigit).length = n := by
    rw [← filter_digit_strip payload.data]
    have hdata : payload.data.filter (fun c => !isJsWhitespace c) =
        (stripWhitespace payload).data := rfl
    rw [hdata, hfilter]
    exact hlen
  exact key

/-! ## Claim theorems -/

/-- C2: in every state, a submit event whose number payload does not have
the required digit count (7 for the DPW reference, 6 for the token) is
silently ignored: the state, all stored fields included, is unchanged. -/
theorem submit_wrong_digit_count_ignored (s : HookState) (num : String) :
    (digitCount num ≠ DPW_REF_LENGTH →
        onFunctionCall s (.submitDpwReferenceNumber num) = s) ∧
    (digitCount num ≠ TOKEN_LENGTH →
        onFunctionCall s (.submitTokenNumber num) = s) := by
  constructor
  · intro hne
    have hv : validNumber DPW_REF_LENGTH (stripWhitespace num) = false := by
      cases hval : validNumber DPW_REF_LENGTH (stripWhitespace num)
      · rfl
      · exact absurd (digitCount_of_validNumber _ _ hval) hne
    simp [onFunctionCall, hv]
  · intro hne
    have hv : validNumber TOKEN_LENGTH (stripWhitespace num) = false := by
      cases hval : validNumber TOKEN_LENGTH (stripWhitespace num)
      · rfl
      · exact absurd (digitCount_of_validNumber _ _ hval) hne
    simp [onFunctionCall, hv]

/-- Witness for C2 at a concrete state and payload. -/
theorem submit_wrong_digit_count_ignored_witness :
    digitCount "12345" ≠ DPW_REF_LENGTH ∧
      onFunctionCall initialState (.submitDpwReferenceNumber "12345") = initialState :=
  ⟨by decide, (submit_wrong_digit_count_ignored initialState "12345").1 (by decide)⟩

/-- C3: a denial returns the machine to the listening state of the
just-denied field and clears that field, from any state: denying the DPW
reference moves to LISTENING_DPW and clears dpwRef, denying the token
moves to LISTENING_TOKEN and clears token. -/
theorem denial_returns_to_listening (s : HookState) :
    onFunctionCall s (.confirmDpwReference false) =
        { s with dpwRef := "", bookingStep := .LISTENING_DPW } ∧
    onFunctionCall s (.confirmToken false) =
        { s with token := "", bookingStep := .LISTENING_TOKEN } :=
  ⟨rfl, rfl⟩

/-- C4: confirmBooking with proceed=false in state CONFIRMING_BOOKING
moves the machine to LISTENING_DPW and clears both the stored reference
number and the stored token. -/
theorem booking_denial_clears_both (s : HookState)
    (h : s.bookingStep = BookingStep.CONFIRMING_BOOKING) :
    onFunctionCall s (.confirmBooking false) =
      { s with dpwRef := "", token := "", bookingStep := .LISTENING_DPW } :=
  rfl

/-- A concrete state in the final-confirmation step. -/
def confirmingBookingState : HookState :=
  { initialState with bookingStep := .CONFIRMING_BOOKING,
                      dpwRef := "1234567", token := "654321" }

/-- Witness for C4 at a concrete state. -/
theorem booking_denial_clears_both_witness :
    confirmingBookingState.bookingStep = BookingStep.CONFIRMING_BOOKING ∧
      onFunctionCall confirmingBookingState (.confirmBooking false) =
        { confirmingBookingState with
            dpwRef := "", token := "", bookingStep := .LISTENING_DPW } :=
  ⟨rfl, booking_denial_clears_both confirmingBookingState rfl⟩

/-- C8: reset, from any state, returns the machine to the initial record:
step IDLE, reference, token, container number, location and gate-in time
all empty, and no error message. -/
theorem reset_returns_initial (s : HookState) : reset s = initialState :=
  rfl

/-- C9: the function-call handlers do not consult the current state: from
every state, a well-formed submit stores its number and moves to the
corresponding confirming step, and every confirmation moves to the step
keyed by the event alone (in particular confirmToken(true) moves to
CONFIRMING_BOOKING even from LISTENING_DPW). -/
theorem handlers_ignore_state (s : HookState) (numRef numTok : String)
    (h7 : validNumber DPW_REF_LENGTH (stripWhitespace numRef) = true)
    (h6 : validNumber TOKEN_LENGTH (stripWhitespace numTok) = true) :
    onFunctionCall s (.submitDpwReferenceNumber numRef) =
      { s with dpwRef := stripWhitespace numRef, bookingStep := .CONFIRMING_DPW } ∧
    onFunctionCall s (.submitTokenNumber numTok) =
      { s with token := stripWhitespace numTok, bookingStep := .CONFIRMING_TOKEN } ∧
    onFunctionCall s (.confirmDpwReference true) =
      { s with bookingStep := .LISTENING_TOKEN } ∧
    onFunctionCall s (.confirmToken true) =
      { s with bookingStep := .CONFIRMING_BOOKING } ∧
    onFunctionCall s (.confirmBooking true) =
      { s with bookingStep := .PROCESSING } := by
  refine ⟨?_, ?_, rfl, rfl, rfl⟩
  · simp [onFunctionCall, h7]
  · simp [onFunctionCall, h6]

/-- A concrete state listening for the DPW reference. -/
def listeningRefState : HookState :=
  { initialState with bookingStep := .LISTENING_DPW }

/-- Witness for C9: confirmToken(true) fires even in LISTENING_DPW. -/
theorem handlers_ignore_state_witness :
    validNumber DPW_REF_LENGTH (stripWhitespace "1234567") = true ∧
    validNumber TOKEN_LENGTH (stripWhitespace "654321") = true ∧
    onFunctionCall listeningRefState (.confirmToken true) =
      { listeningRefState with bookingStep := .CONFIRMING_BOOKING } :=
  ⟨by decide, by decide,
    (handlers_ignore_state listeningRefState "1234567" "654321"
      (by decide) (by decide)).2.2.2.1⟩

/-- C10: submitManualInput performs no digit-count validation: any string
is stored as the reference (in LISTENING_DPW) or the token (in
LISTENING_TOKEN) with the step advanced, and in every other state the
call changes nothing. -/
theorem submitManualInput_no_validation (s : HookState) (number : String) :
    (s.bookingStep = BookingStep.LISTENING_DPW →
        submitManualInput s number =
          { s with dpwRef := number, bookingStep := .CONFIRMING_DPW }) ∧
    (s.bookingStep = BookingStep.LISTENING_TOKEN →
        submitManualInput s number =
          { s with token := number, bookingStep := .CONFIRMING_TOKEN }) ∧
    (s.bookingStep ≠ BookingStep.LISTENING_DPW →
      s.bookingStep ≠ BookingStep.LISTENING_TOKEN →
        submitManualInput s number = s) := by
  refine ⟨fun h => ?_, fun h => ?_, fun h1 h2 => ?_⟩
  · simp [submitManualInput, h]
  · simp [submitManualInput, h]
  · simp [submitManualInput, h1, h2]

/-- Witness for C10: a non-numeric string of the wrong length is stored
verbatim while listening for the reference. -/
theorem submitManualInput_no_validation_witness :
    listeningRefState.bookingStep = BookingStep.LISTENING_DPW ∧
      submitManualInput listeningRefState "not-even-digits" =
        { listeningRefState with
            dpwRef := "not-even-digits", bookingStep := .CONFIRMING_DPW } :=
  ⟨rfl, (submitManualInput_no_validation listeningRefState "not-even-digits").1 rfl⟩

/-- C1 as stated (read charitably: an ignored payload leaving the step
unchanged is also allowed): from every reachable state, every handled
event moves to the immediate successor in the fixed linear order, or, on
a denial event, to the immediately preceding listening state. -/
def linearOrderWithRollback : Prop :=
  ∀ s : HookState, Reachable s → ∀ fc : FunctionCall,
    (onFunctionCall s fc).bookingStep = s.bookingStep ∨
    some (onFunctionCall s fc).bookingStep = linearSucc s.bookingStep ∨
    (isDenial fc = true ∧
      some (onFunctionCall s fc).bookingStep = precedingListening s.bookingStep)

/-- C1 counterexample: in the reachable state LISTENING_DPW, the handled
event confirmToken(true) jumps to CONFIRMING_BOOKING, which is neither
the immediate successor CONFIRMING_DPW nor a denial rollback. -/
theorem linear_order_counterexample : ¬ linearOrderWithRollback := by
  intro h
  have hr : Reachable (onopen (startBookingInit initialState)) :=
    Reachable.opened (Reachable.startB Reachable.init)
  exact absurd (h _ hr (.confirmToken true)) (by decide)

/-- C1 amended: the next step is keyed by the event alone — the current
state enters only through an invalid submission leaving the step
unchanged — so the linear order with rollback holds only when each event
arrives in the state the transition table names for it, and a
final-booking denial returns to LISTENING_DPW. -/
theorem step_determined_by_event (s : HookState) (fc : FunctionCall) :
    (onFunctionCall s fc).bookingStep = eventTargetStep fc s.bookingStep := by
  cases fc with
  | submitDpwReferenceNumber payload =>
      simp only [onFunctionCall, eventTargetStep]
      split <;> rfl
  | confirmDpwReference isCorrect => cases isCorrect <;> rfl
  | submitTokenNumber payload =>
      simp only [onFunctionCall, eventTargetStep]
      split <;> rfl
  | confirmToken isCorrect => cases isCorrect <;> rfl
  | confirmBooking proceed => cases proceed <;> rfl

/-- C5: confirmBooking(proceed=true) in state CONFIRMING_BOOKING moves
through PROCESSING, and the completed processBooking body reaches
SUCCESS with container number, location and gate-in time all set to
non-empty values. -/
theorem final_confirmation_populates_record (s : HookState) (r : ProcessRandom)
    (h : s.bookingStep = BookingStep.CONFIRMING_BOOKING) :
    (onFunctionCall s (.confirmBooking true)).bookingStep = BookingStep.PROCESSING ∧
    (processBooking (onFunctionCall s (.confirmBooking true)) r).bookingStep =
      BookingStep.SUCCESS ∧
    (processBooking (onFunctionCall s (.confirmBooking true)) r).containerNumber ≠ "" ∧
    (processBooking (onFunctionCall s (.confirmBooking true)) r).containerLocation ≠ "" ∧
    (processBooking (onFunctionCall s (.confirmBooking true)) r).gateInTime ≠ "" := by
  refine ⟨rfl, rfl, ?_, ?_, ?_⟩
  · show mockContainerNumber r ≠ ""
    exact string_append_ne_empty_left _ _ (by decide)
  · show generateMockLocation r ≠ ""
    have hp : (padStart2 (toString r.locPart1)).data ≠ [] := padStart2_data_ne_nil _
    exact string_append_ne_empty_left _ _
      (data_ne_nil_append_left _ _ (data_ne_nil_append_left _ _
        (data_ne_nil_append_left _ _ hp)))
  · show mockGateInTime r ≠ ""
    exact string_append_ne_empty_right _ _ (by decide)

/-- A fixed sample of the random draws of processBooking. -/
def sampleRandom : ProcessRandom :=
  { containerNum := 4821937, locPart1 := 7, locIdx2 := 2, locPart3 := 55,
    locIdx4 := 10, locPart5 := 4, hour := 3, minute := 5 }

/-- Witness for C5 at a concrete state and random draw. -/
theorem final_confirmation_populates_record_witness :
    confirmingBookingState.bookingStep = BookingStep.CONFIRMING_BOOKING ∧
    ((onFunctionCall confirmingBookingState (.confirmBooking true)).bookingStep =
        BookingStep.PROCESSING ∧
      (processBooking (onFunctionCall confirmingBookingState (.confirmBooking true))
          sampleRandom).bookingStep = BookingStep.SUCCESS ∧
      (processBooking (onFunctionCall confirmingBookingState (.confirmBooking true))
          sampleRandom).containerNumber ≠ "" ∧
      (processBooking (onFunctionCall confirmingBookingState (.confirmBooking true))
          sampleRandom).containerLocation ≠ "" ∧
      (processBooking (onFunctionCall confirmingBookingState (.confirmBooking true))
          sampleRandom).gateInTime ≠ "") :=
  ⟨rfl, final_confirmation_populates_record confirmingBookingState sampleRandom rfl⟩

/-- C6: playAudio never moves the cursor backwards; each chunk is
scheduled to start exactly at the (clamped) cursor, which is at least
the context's currentTime and at least the end of every pending chunk
(no overlap), and exactly at the previous cursor whenever playback has
not drained (no gap); the cursor then advances by exactly the chunk's
duration, re-establishing the queue invariant; and stopPlayback (the
interruption path) clears the queue and resets the cursor to zero. -/
theorem audio_cursor_properties (st : AudioPlayback) (currentTime duration : ℚ)
    (hd : 0 ≤ duration) (hb : pendingBounded st) :
    st.nextStartTime ≤ (playAudio st currentTime duration).nextStartTime ∧
    (playAudio st currentTime duration).sources =
      st.sources ++ [⟨max st.nextStartTime currentTime, duration⟩] ∧
    currentTime ≤ max st.nextStartTime currentTime ∧
    (playAudio st currentTime duration).nextStartTime =
      max st.nextStartTime currentTime + duration ∧
    (∀ c ∈ st.sources, c.start + c.duration ≤ max st.nextStartTime currentTime) ∧
    (currentTime ≤ st.nextStartTime →
      max st.nextStartTime currentTime = st.nextStartTime) ∧
    pendingBounded (playAudio st currentTime duration) ∧
    stopPlayback st = { nextStartTime := 0, sources := [] } := by
  have h1 : st.nextStartTime ≤ (playAudio st currentTime duration).nextStartTime := by
    show st.nextStartTime ≤ max st.nextStartTime currentTime + duration
    have hm := le_max_left st.nextStartTime currentTime
    linarith
  have h5 : ∀ c ∈ st.sources, c.start + c.duration ≤ max st.nextStartTime currentTime :=
    fun c hc => le_trans (hb c hc) (le_max_left _ _)
  have h7 : pendingBounded (playAudio st currentTime duration) := by
    intro c hc
    show c.start + c.duration ≤ max st.nextStartTime currentTime + duration
    have hc2 : c ∈ st.sources ++ [(⟨max st.nextStartTime currentTime, duration⟩ : ScheduledChunk)] := hc
    rcases List.mem_append.mp hc2 with hmem | hmem
    · have hend := hb c hmem
      have hm := le_max_left st.nextStartTime currentTime
      linarith
    · have hcc : c = ⟨max st.nextStartTime currentTime, duration⟩ :=
        List.mem_singleton.mp hmem
      subst hcc
      exact le_rfl
  exact ⟨h1, rfl, le_max_right _ _, rfl, h5, fun h => max_eq_left h, h7, rfl⟩

/-- A concrete playback state: cursor at 3 s with one pending 2 s chunk
scheduled at 1 s. -/
def audioWitnessState : AudioPlayback :=
  { nextStartTime := 3, sources := [{ start := 1, duration := 2 }] }

/-- Witness for C6 at a concrete playback state, currentTime 2 s and a
5-second chunk. -/
theorem audio_cursor_properties_witness :
    (0 : ℚ) ≤ 5 ∧ pendingBounded audioWitnessState ∧
      (audioWitnessState.nextStartTime ≤ (playAudio audioWitnessState 2 5).nextStartTime ∧
        (playAudio audioWitnessState 2 5).sources =
          audioWitnessState.sources ++
            [⟨max audioWitnessState.nextStartTime 2, 5⟩] ∧
        (2 : ℚ) ≤ max audioWitnessState.nextStartTime 2 ∧
        (playAudio audioWitnessState 2 5).nextStartTime =
          max audioWitnessState.nextStartTime 2 + 5 ∧
        (∀ c ∈ audioWitnessState.sources,
          c.start + c.duration ≤ max audioWitnessState.nextStartTime 2) ∧
        ((2 : ℚ) ≤ audioWitnessState.nextStartTime →
          max audioWitnessState.nextStartTime 2 = audioWitnessState.nextStartTime) ∧
        pendingBounded (playAudio audioWitnessState 2 5) ∧
        stopPlayback audioWitnessState = { nextStartTime := 0, sources := [] }) :=
  have hb : pendingBounded audioWitnessState := by
    intro c hc
    simp only [audioWitnessState, List.mem_singleton] at hc
    subst hc
    norm_num [audioWitnessState]
  ⟨by norm_num, hb, audio_cursor_properties audioWitnessState 2 5 (by norm_num) hb⟩

/-- C7 as stated: failures surface as ERROR, and ERROR is terminal — no
function-call event moves a reachable machine out of the ERROR state. -/
def errorStateTerminal : Prop :=
  (∀ s : HookState,
    (onerror s).bookingStep = BookingStep.ERROR ∧ (onerror s).error ≠ none ∧
    (startBookingFailure s).bookingStep = BookingStep.ERROR ∧
    (startBookingFailure s).error ≠ none) ∧
  (∀ s : HookState, Reachable s → s.bookingStep = BookingStep.ERROR →
    ∀ fc : FunctionCall, (onFunctionCall s fc).bookingStep = BookingStep.ERROR)

/-- C7 counterexample: in the reachable ERROR state left behind by a
connection failure, confirmToken(true) — not a reset — moves the machine
to CONFIRMING_BOOKING. -/
theorem error_terminal_counterexample : ¬ errorStateTerminal := by
  intro h
  have hr : Reachable (onerror initialState) := Reachable.sessionErr Reachable.init
  exact absurd (h.2 (onerror initialState) hr rfl (.confirmToken true)) (by decide)

/-- C7 amended: every connection or microphone failure enters ERROR with
a non-empty user-facing message, reset returns the machine to the
initial record, and manual input in ERROR changes nothing — but ERROR is
not terminal against function-call events, whose handlers are unguarded:
confirmToken(true) delivered in ERROR moves to CONFIRMING_BOOKING. -/
theorem error_surfacing_and_exit (s : HookState) :
    (onerror s).bookingStep = BookingStep.ERROR ∧
    (onerror s).error = some connectionErrorMessage ∧
    connectionErrorMessage ≠ "" ∧
    (startBookingFailure s).bookingStep = BookingStep.ERROR ∧
    (startBookingFailure s).error = some micErrorMessage ∧
    micErrorMessage ≠ "" ∧
    (∀ n, s.bookingStep = BookingStep.ERROR → submitManualInput s n = s) ∧
    (s.bookingStep = BookingStep.ERROR → reset s = initialState) ∧
    (s.bookingStep = BookingStep.ERROR →
      (onFunctionCall s (.confirmToken true)).bookingStep =
        BookingStep.CONFIRMING_BOOKING) := by
  refine ⟨rfl, rfl, by decide, rfl, rfl, by decide, fun n h => ?_, fun h => rfl, fun h => rfl⟩
  simp [submitManualInput, h]

/-- Witness for C7 (amended) in the concrete ERROR state produced by a
connection failure. -/
theorem error_surfacing_and_exit_witness :
    submitManualInput (onerror initialState) "123" = onerror initialState ∧
      (onFunctionCall (onerror initialState) (.confirmToken true)).bookingStep =
        BookingStep.CONFIRMING_BOOKING :=
  ⟨(error_surfacing_and_exit (onerror initialState)).2.2.2.2.2.2.1 "123" rfl,
    (error_surfacing_and_exit (onerror initialState)).2.2.2.2.2.2.2.2 rfl⟩
